import Mathlib

/-!
# EduWave backend — shallow embedding of the identity lifecycle and course progress

This file embeds, in Lean 4, the parts of the EduWave backend needed to settle
the specification claims: the `User` credential store and the auth controller
operations (`register`, `login`, `verifyEmail`, `resendVerification`,
`forgotPassword`, `resetPassword`, `refreshToken`, and the older second
`register` variant), plus the `CourseProgress.updateProgress` method.

Modelling conventions:
* Timestamps are integers (milliseconds), mirroring `Date.now()` arithmetic.
* The backing store is a list of `User` records; `findOne`/`findById` are
  first-match searches and `save` replaces the record with the matching id.
* The SHA-256 hash used for email-verification / password-reset tokens is an
  external library primitive; operations take it as an explicit function
  parameter `hash : String → String` (the code only relies on it being a
  deterministic function).
* JWTs signed with a fixed secret are determined by their payload `{id}` and
  their issue/expiry times, so a signed token is modelled as the structure
  `SignedToken` and string comparison of serialized JWTs becomes structural
  equality.
* Email dispatch is an external collaborator that either succeeds or throws;
  it is modelled by a boolean `emailOk` parameter at each call site.
-/

/-- A signed JWT for a fixed secret is determined by its payload `{ id }`,
its issued-at time and its expiry (`jwt.sign({ id: userId }, secret,
{ expiresIn })` in `utils/generateToken.js`). -/
structure SignedToken where
  userId : Nat
  iat : Int
  exp : Int
deriving DecidableEq, Repr

/-- Access-token lifetime: `JWT_ACCESS_EXPIRE || '15m'` in milliseconds. -/
def accessExpireMs : Int := 15 * 60 * 1000

/-- Refresh-token lifetime: `JWT_REFRESH_EXPIRE || '7d'` in milliseconds. -/
def refreshExpireMs : Int := 7 * 24 * 60 * 60 * 1000

/-- `generateAccessToken` from `utils/generateToken.js`. -/
def generateAccessToken (userId : Nat) (now : Int) : SignedToken :=
  ⟨userId, now, now + accessExpireMs⟩

/-- `generateRefreshToken` from `utils/generateToken.js`. -/
def generateRefreshToken (userId : Nat) (now : Int) : SignedToken :=
  ⟨userId, now, now + refreshExpireMs⟩

/-- `generateTokens` from `utils/generateToken.js`: an access/refresh pair. -/
def generateTokens (userId : Nat) (now : Int) : SignedToken × SignedToken :=
  (generateAccessToken userId now, generateRefreshToken userId now)

/-- `jwt.verify` rejects a token whose expiry has passed. -/
def jwtExpired (t : SignedToken) (now : Int) : Bool :=
  t.exp ≤ now

/-- The `User` document (fields used by the auth controller).
`password` holds the stored credential; `refreshToken` the single
currently-valid refresh token; token hashes and expiries are nullable. -/
structure User where
  id : Nat
  fullName : String
  email : String
  password : String
  role : String
  emailVerified : Bool
  emailVerificationToken : Option String
  emailVerificationExpire : Option Int
  passwordResetToken : Option String
  passwordResetExpire : Option Int
  refreshToken : Option SignedToken
  loginStreak : Nat
  lastLoginDate : Option Int
deriving DecidableEq, Repr

/-- The credential store: the collection of `User` documents. -/
abbrev Store := List User

/-- `User.findOne({ email })`: first document whose email matches exactly. -/
def findByEmail (s : Store) (e : String) : Option User :=
  List.find? (fun u => u.email == e) s

/-- `User.findById(id)`: first document with the given id. -/
def findById (s : Store) (i : Nat) : Option User :=
  List.find? (fun u => u.id == i) s

/-- `user.save()`: replace the document with this id by the updated value. -/
def updateUser (s : Store) (i : Nat) (u' : User) : Store :=
  List.map (fun v => if v.id == i then u' else v) s

/-- Modelled from the spec: the `User` model (not part of the provided
sources) exposes an opaque `matchPassword` capability comparing a presented
password against the stored salted hash; modelled as comparison against the
stored credential value. -/
def User.matchPassword (u : User) (candidate : String) : Bool :=
  u.password == candidate

/-- Modelled from the spec: the `User` schema's `role` field defaults to
`user` when absent from the creation payload. -/
def defaultRole : String := "user"

/-- The `{ status, success, message }` envelope every controller path
returns (the refresh success responds with no message field, modelled as
the empty string). -/
structure ApiResponse where
  status : Nat
  success : Bool
  message : String
deriving DecidableEq, Repr

/-! ## CourseProgress (`src/models/CourseProgress.js`) -/

/-- The `CourseProgress` document fields touched by `updateProgress`. -/
structure CourseProgress where
  progress : Int
  completedLessons : List Nat
  currentLesson : Nat
  lastAccessedAt : Int
  completedAt : Option Int
deriving DecidableEq, Repr

/-- JavaScript `Math.round` on a nonnegative argument: `⌊q + 1/2⌋`
(half-values round up, as in JS). -/
def mathRound (q : ℚ) : Int :=
  Int.floor (q + 1 / 2)

/-- `courseProgressSchema.methods.updateProgress`: rebuilds
`completedLessons` as `[0, …, completedLessonsCount)`, sets
`progress = round(completedLessonsCount / totalLessons * 100)` (0 when
`totalLessons = 0`), updates `lastAccessedAt`, and sets `completedAt`
the first time progress reaches 100. -/
def updateProgress (cp : CourseProgress) (completedLessonsCount totalLessons : Nat)
    (now : Int) : CourseProgress :=
  let newProgress : Int :=
    if totalLessons > 0 then
      mathRound ((completedLessonsCount : ℚ) / (totalLessons : ℚ) * 100)
    else 0
  let cp1 : CourseProgress :=
    { cp with
      completedLessons := List.range completedLessonsCount
      progress := newProgress
      lastAccessedAt := now }
  if cp1.progress = 100 ∧ cp1.completedAt = none then
    { cp1 with completedAt := some now }
  else
    cp1

/-! ## Auth controller (`src/controllers/authController.js`, first file) -/

/-- JavaScript `String.prototype.trim`: drop leading and trailing
whitespace (written over the character list so it evaluates by reduction). -/
def jsTrim (s : String) : String :=
  ⟨((s.data.dropWhile Char.isWhitespace).reverse.dropWhile Char.isWhitespace).reverse⟩

/-- Characters before the first `?`, if any. -/
def stripQueryChars : List Char → List Char
  | [] => []
  | c :: cs => if c = '?' then [] else c :: stripQueryChars cs

/-- Strip an accidentally-included query string from the path token
(`token.split('?')[0]` in `verifyEmail`). -/
def stripQuery (token : String) : String :=
  ⟨stripQueryChars token.data⟩

/-- JavaScript `String.prototype.toLowerCase` (ASCII, as used on emails). -/
def jsToLower (s : String) : String :=
  ⟨s.data.map Char.toLower⟩

/-- A freshly created user document (`User.create` in `register`):
`emailVerified` defaults to false, verification hash and 24-hour expiry set,
no reset token, no refresh token, zero streak, no last login. -/
def mkRegisteredUser (newId : Nat) (fullName email password role : String)
    (hashedToken : String) (now : Int) : User :=
  { id := newId
    fullName := fullName
    email := email
    password := password
    role := role
    emailVerified := false
    emailVerificationToken := some hashedToken
    emailVerificationExpire := some (now + 24 * 60 * 60 * 1000)
    passwordResetToken := none
    passwordResetExpire := none
    refreshToken := none
    loginStreak := 0
    lastLoginDate := none }

/-- `exports.register` (current variant, lines 8–104): field validation,
password-confirmation check, duplicate-email check, rejection of a truthy
non-`user` role field, then creation with role forced to `user`.  The
verification email is sent best-effort: a dispatch failure is logged and
swallowed, so `emailOk` does not affect the outcome. -/
def register (hash : String → String) (s : Store)
    (fullName email password passwordConfirm : String) (roleField : Option String)
    (verificationToken : String) (now : Int) (newId : Nat) (emailOk : Bool) :
    ApiResponse × Store :=
  if fullName = "" ∨ email = "" ∨ password = "" ∨ passwordConfirm = "" then
    (⟨400, false, "Please provide all required fields"⟩, s)
  else if password ≠ passwordConfirm then
    (⟨400, false, "Passwords do not match"⟩, s)
  else if (findByEmail s email).isSome then
    (⟨400, false, "User already exists with this email"⟩, s)
  else if (match roleField with
           | some r => r ≠ "" && r ≠ "user"
           | none => false : Bool) then
    (⟨403, false, "You cannot assign roles during registration. All users register with the default \"user\" role."⟩, s)
  else
    let user := mkRegisteredUser newId fullName email password "user"
      (hash verificationToken) now
    let _ := emailOk
    (⟨201, true, "Registration successful! Please check your email to verify your account."⟩,
      s ++ [user])

/-- `exports.register` (second variant, lines 879–967): no role check and no
role in the creation payload, so the schema default `user` applies; on email
dispatch failure the just-created user is deleted again
(`User.findByIdAndDelete`) and the request fails with 500. -/
def registerV2 (hash : String → String) (s : Store)
    (fullName email password passwordConfirm : String)
    (verificationToken : String) (now : Int) (newId : Nat) (emailOk : Bool) :
    ApiResponse × Store :=
  if fullName = "" ∨ email = "" ∨ password = "" ∨ passwordConfirm = "" then
    (⟨400, false, "Please provide all required fields"⟩, s)
  else if password ≠ passwordConfirm then
    (⟨400, false, "Passwords do not match"⟩, s)
  else if (findByEmail s email).isSome then
    (⟨400, false, "User already exists with this email"⟩, s)
  else
    let user := mkRegisteredUser newId fullName email password defaultRole
      (hash verificationToken) now
    if emailOk then
      (⟨201, true, "Registration successful! Please check your email to verify your account."⟩,
        s ++ [user])
    else
      (⟨500, false, "Registration failed. Could not send verification email."⟩, s)

/-- `exports.login` (lines 106–205): validation, user lookup (absent →
`Invalid credentials`), email-verification gate, password check (mismatch →
`Invalid credentials`), then the 24-hour streak update, unconditional
`lastLoginDate := now`, token issuance and refresh-token persistence. -/
def login (s : Store) (email password : String) (now : Int) :
    ApiResponse × Store :=
  if email = "" ∨ password = "" then
    (⟨400, false, "Please provide email and password"⟩, s)
  else
    match findByEmail s email with
    | none => (⟨401, false, "Invalid credentials"⟩, s)
    | some u =>
      if ¬ u.emailVerified then
        (⟨403, false, "Please verify your email before logging in"⟩, s)
      else if ¬ u.matchPassword password then
        (⟨401, false, "Invalid credentials"⟩, s)
      else
        let newStreak : Nat :=
          match u.lastLoginDate with
          | none => 1
          | some last =>
            -- (now - last) / 3600000 ≤ 24 ⟺ now - last ≤ 24 * 3600000
            if now - last ≤ 24 * 60 * 60 * 1000 then u.loginStreak + 1 else 1
        let pair := generateTokens u.id now
        let u' := { u with
          loginStreak := newStreak
          lastLoginDate := some now
          refreshToken := some pair.2 }
        (⟨200, true, "Login successful"⟩, updateUser s u.id u')

/-- `exports.verifyEmail` (current variant, API branch, lines 228–288):
strips a stray query string, rejects a blank token, hashes the trimmed
token, looks the hash up; no match → invalid-token error; a set, past
expiry → expired error; already verified → idempotent success without
writes; otherwise sets `emailVerified`, clears both verification fields
and saves. -/
def verifyEmail (hash : String → String) (s : Store) (token0 : String)
    (now : Int) : ApiResponse × Store :=
  let token := stripQuery token0
  if jsTrim token = "" then
    (⟨400, false, "Verification token is required"⟩, s)
  else
    let hashedToken := hash (jsTrim token)
    match List.find? (fun u => u.emailVerificationToken == some hashedToken) s with
    | none =>
      (⟨400, false, "Invalid verification token. The token may be incorrect or already used."⟩, s)
    | some u =>
      if (match u.emailVerificationExpire with
          | some e => decide (e < now)
          | none => false : Bool) then
        (⟨400, false, "Verification token has expired. Please request a new verification email."⟩, s)
      else if u.emailVerified then
        (⟨200, true, "Email is already verified"⟩, s)
      else
        let u' := { u with
          emailVerified := true
          emailVerificationToken := none
          emailVerificationExpire := none }
        (⟨200, true, "Email verified successfully"⟩, updateUser s u.id u')

/-- `exports.resendVerification` (lines 565–641): lowercased lookup; absent
user → generic 200 success; already verified → 400; otherwise rotates the
verification hash and 24-hour expiry, saves, then dispatches the email —
dispatch failure yields 500 but the rotated token state is kept. -/
def resendVerification (hash : String → String) (s : Store) (email : String)
    (verificationToken : String) (now : Int) (emailOk : Bool) :
    ApiResponse × Store :=
  if email = "" then
    (⟨400, false, "Email is required"⟩, s)
  else
    match findByEmail s (jsToLower email) with
    | none =>
      (⟨200, true, "If an account exists with this email, a verification email has been sent."⟩, s)
    | some u =>
      if u.emailVerified then
        (⟨400, false, "Email is already verified"⟩, s)
      else
        let u' := { u with
          emailVerificationToken := some (hash verificationToken)
          emailVerificationExpire := some (now + 24 * 60 * 60 * 1000) }
        let s1 := updateUser s u.id u'
        if emailOk then
          (⟨200, true, "Verification email sent successfully. Please check your email."⟩, s1)
        else
          (⟨500, false, "Failed to send verification email. Please try again later."⟩, s1)

/-- `exports.forgotPassword` (lines 722–800): lowercased lookup; absent user
→ generic 200 success; otherwise stores the reset hash and 1-hour expiry,
saves, dispatches the email; on dispatch failure both reset fields are set
to `undefined`, saved again, and the request fails with 500. -/
def forgotPassword (hash : String → String) (s : Store) (email : String)
    (resetToken : String) (now : Int) (emailOk : Bool) :
    ApiResponse × Store :=
  if email = "" then
    (⟨400, false, "Email is required"⟩, s)
  else
    match findByEmail s (jsToLower email) with
    | none =>
      (⟨200, true, "If an account exists with this email, a password reset link has been sent."⟩, s)
    | some u =>
      let u1 := { u with
        passwordResetToken := some (hash resetToken)
        passwordResetExpire := some (now + 60 * 60 * 1000) }
      let s1 := updateUser s u.id u1
      if emailOk then
        (⟨200, true, "If an account exists with this email, a password reset link has been sent."⟩, s1)
      else
        let u2 := { u1 with passwordResetToken := none, passwordResetExpire := none }
        (⟨500, false, "Failed to send password reset email. Please try again later."⟩,
          updateUser s1 u.id u2)

/-- `exports.resetPassword` (lines 802–867): validation (missing fields,
password confirmation, minimum length 6), then a single conditional lookup
`{ passwordResetToken: hash, passwordResetExpire: { $gt: now } }`; no match
(wrong hash OR expired) → one combined `Invalid or expired` error; on match
the password is replaced and both reset fields cleared in the same save. -/
def resetPassword (hash : String → String) (s : Store)
    (token password passwordConfirm : String) (now : Int) :
    ApiResponse × Store :=
  if token = "" ∨ password = "" ∨ passwordConfirm = "" then
    (⟨400, false, "Please provide token, password, and password confirmation"⟩, s)
  else if password ≠ passwordConfirm then
    (⟨400, false, "Passwords do not match"⟩, s)
  else if password.length < 6 then
    (⟨400, false, "Password must be at least 6 characters"⟩, s)
  else
    let hashedToken := hash (jsTrim token)
    match List.find? (fun u =>
        u.passwordResetToken == some hashedToken &&
        (match u.passwordResetExpire with
         | some e => now < e
         | none => false)) s with
    | none =>
      (⟨400, false, "Invalid or expired password reset token"⟩, s)
    | some u =>
      let u' := { u with
        password := password
        passwordResetToken := none
        passwordResetExpire := none }
      (⟨200, true, "Password reset successfully"⟩, updateUser s u.id u')

/-- `exports.refreshToken` (lines 643–697): missing token → 400;
`jwt.verify` failure (bad signature or expired) → 401 `Invalid or expired
refresh token`; user absent or stored token differing from the presented one
→ 401 `Invalid refresh token` (the spec's `RefreshTokenMismatch`); otherwise
a fresh pair is issued and the stored refresh token overwritten. -/
def refreshTokenOp (s : Store) (tok : Option SignedToken) (now : Int) :
    ApiResponse × Store :=
  match tok with
  | none => (⟨400, false, "Refresh token is required"⟩, s)
  | some t =>
    if jwtExpired t now then
      (⟨401, false, "Invalid or expired refresh token"⟩, s)
    else
      match findById s t.userId with
      | none => (⟨401, false, "Invalid refresh token"⟩, s)
      | some u =>
        if u.refreshToken ≠ some t then
          (⟨401, false, "Invalid refresh token"⟩, s)
        else
          let pair := generateTokens u.id now
          (⟨200, true, ""⟩, updateUser s u.id { u with refreshToken := some pair.2 })

/-! ## Store lemmas -/

theorem findById_id_eq {s : Store} {i : Nat} {u : User} (h : findById s i = some u) :
    u.id = i := by
  have hp := List.find?_some h
  simpa using hp

theorem findById_updateUser {s : Store} {i : Nat} {u u' : User}
    (h : findById s i = some u) (hid : u'.id = i) :
    findById (updateUser s i u') i = some u' := by
  induction s with
  | nil => simp [findById] at h
  | cons v t ih =>
    unfold findById at h
    unfold findById updateUser
    rw [List.map_cons]
    by_cases hv : v.id = i
    · rw [if_pos (by simpa using hv)]
      exact List.find?_cons_of_pos _ (by simpa using hid)
    · rw [if_neg (by simpa using hv)]
      rw [List.find?_cons_of_neg _ (by simpa using hv)]
      rw [List.find?_cons_of_neg _ (by simpa using hv)] at h
      exact ih h

theorem mem_updateUser {s : Store} {i : Nat} {u' w : User}
    (h : w ∈ updateUser s i u') : w = u' ∨ (w ∈ s ∧ w.id ≠ i) := by
  rcases List.mem_map.mp h with ⟨v, hv, hw⟩
  by_cases hvi : v.id = i
  · left
    simpa [hvi] using hw.symm
  · right
    have hwv : w = v := by simpa [hvi] using hw.symm
    exact hwv ▸ ⟨hv, hvi⟩

theorem two_le_length_filter (p : User → Bool) {l : List User} {a b : User}
    (ha : a ∈ l) (hb : b ∈ l) (hab : a ≠ b) (hpa : p a = true) (hpb : p b = true) :
    2 ≤ (l.filter p).length := by
  have ha' : a ∈ l.filter p := List.mem_filter.mpr ⟨ha, hpa⟩
  have hb' : b ∈ l.filter p := List.mem_filter.mpr ⟨hb, hpb⟩
  rcases hfl : l.filter p with _ | ⟨x, _ | ⟨y, r⟩⟩
  · rw [hfl] at ha'
    cases ha'
  · rw [hfl] at ha' hb'
    simp only [List.mem_singleton] at ha' hb'
    exact absurd (ha'.trans hb'.symm) hab
  · simp only [List.length_cons]
    omega

/-! ## Claim theorems -/

/-- C10: `updateProgress` sets `progress` to
`round(completedLessonsCount / totalLessons * 100)` when `totalLessons > 0`
and to 0 otherwise; the result stays within `[0, 100]` whenever
`completedLessonsCount ≤ totalLessons`; and `completedAt`, once set, is
never modified or cleared by a later `updateProgress` call. -/
theorem updateProgress_correct (cp : CourseProgress) (c t : Nat) (now : Int)
    (hct : c ≤ t) :
    ((updateProgress cp c t now).progress
        = if 0 < t then mathRound ((c : ℚ) / (t : ℚ) * 100) else 0)
    ∧ 0 ≤ (updateProgress cp c t now).progress
    ∧ (updateProgress cp c t now).progress ≤ 100
    ∧ (∀ d, cp.completedAt = some d →
        (updateProgress cp c t now).completedAt = some d) := by
  have hprog : (updateProgress cp c t now).progress
      = if 0 < t then mathRound ((c : ℚ) / (t : ℚ) * 100) else 0 := by
    simp only [updateProgress]
    split <;> split <;> rfl
  have hbounds : 0 ≤ (updateProgress cp c t now).progress
      ∧ (updateProgress cp c t now).progress ≤ 100 := by
    rw [hprog]
    by_cases ht : 0 < t
    · have htq : (0 : ℚ) < (t : ℚ) := by exact_mod_cast ht
      have hq0 : (0 : ℚ) ≤ (c : ℚ) / (t : ℚ) * 100 := by positivity
      have hq1 : (c : ℚ) / (t : ℚ) * 100 ≤ 100 := by
        have hle : (c : ℚ) / (t : ℚ) ≤ 1 := by
          rw [div_le_one htq]
          exact_mod_cast hct
        nlinarith
      rw [if_pos ht]
      constructor
      · rw [mathRound]
        exact Int.floor_nonneg.mpr (by linarith)
      · have hlt : mathRound ((c : ℚ) / (t : ℚ) * 100) < 101 := by
          rw [mathRound, Int.floor_lt]
          push_cast
          linarith
        omega
    · simp [ht]
  refine ⟨hprog, hbounds.1, hbounds.2, ?_⟩
  intro d hd
  simp [updateProgress, hd]

/-- C5: on every successful login the streak becomes 1 when there is no
prior `lastLoginDate`; otherwise it increments when at most 24 hours passed
since the last login and resets to 1 when more than 24 hours passed; and
`lastLoginDate` is set to `now` unconditionally. -/
theorem login_streak (s : Store) (email password : String) (now : Int) (u : User)
    (hemail : email ≠ "") (hpw : password ≠ "")
    (hfind : findByEmail s email = some u)
    (hver : u.emailVerified = true)
    (hmatch : u.matchPassword password = true)
    (hid : findById s u.id = some u) :
    (login s email password now).1 = ⟨200, true, "Login successful"⟩
    ∧ ∃ u', findById (login s email password now).2 u.id = some u'
        ∧ u'.lastLoginDate = some now
        ∧ (u.lastLoginDate = none → u'.loginStreak = 1)
        ∧ (∀ last, u.lastLoginDate = some last →
            (now - last ≤ 24 * 60 * 60 * 1000 → u'.loginStreak = u.loginStreak + 1)
            ∧ (24 * 60 * 60 * 1000 < now - last → u'.loginStreak = 1)) := by
  have hcond : ¬(email = "" ∨ password = "") := by
    push_neg
    exact ⟨hemail, hpw⟩
  have hlogin : login s email password now
      = (⟨200, true, "Login successful"⟩,
         updateUser s u.id
           { u with
             loginStreak :=
               match u.lastLoginDate with
               | none => 1
               | some last =>
                 if now - last ≤ 24 * 60 * 60 * 1000 then u.loginStreak + 1 else 1
             lastLoginDate := some now
             refreshToken := some (generateTokens u.id now).2 }) := by
    unfold login
    rw [if_neg hcond, hfind]
    simp [hver, hmatch]
  rw [hlogin]
  refine ⟨rfl, ?_⟩
  refine ⟨_, findById_updateUser hid rfl, rfl, ?_, ?_⟩
  · intro hnone
    simp only [hnone]
  · intro last hlast
    simp only [hlast]
    constructor
    · intro hle
      simp only [if_pos hle]
    · intro hgt
      simp only [if_neg (by omega : ¬ now - last ≤ 24 * 60 * 60 * 1000)]

/-- C6: an absent user and a wrong password on an existing verified user
produce the identical `Invalid credentials` failure response (and leave the
store unchanged), while a correct password on an unverified account fails
with the distinct email-not-verified response. -/
theorem login_enumeration (s : Store) (e1 pw1 e2 pw2 e3 pw3 : String)
    (now : Int) (u v : User)
    (h1e : e1 ≠ "") (h1p : pw1 ≠ "") (habsent : findByEmail s e1 = none)
    (h2e : e2 ≠ "") (h2p : pw2 ≠ "") (hfind2 : findByEmail s e2 = some u)
    (hver : u.emailVerified = true) (hwrong : u.matchPassword pw2 = false)
    (h3e : e3 ≠ "") (h3p : pw3 ≠ "") (hfind3 : findByEmail s e3 = some v)
    (hunver : v.emailVerified = false) (hright : v.matchPassword pw3 = true) :
    login s e1 pw1 now = (⟨401, false, "Invalid credentials"⟩, s)
    ∧ login s e2 pw2 now = (⟨401, false, "Invalid credentials"⟩, s)
    ∧ login s e3 pw3 now = (⟨403, false, "Please verify your email before logging in"⟩, s)
    ∧ (⟨403, false, "Please verify your email before logging in"⟩ : ApiResponse)
        ≠ ⟨401, false, "Invalid credentials"⟩ := by
  refine ⟨?_, ?_, ?_, by decide⟩
  · have hcond : ¬(e1 = "" ∨ pw1 = "") := by
      push_neg
      exact ⟨h1e, h1p⟩
    unfold login
    rw [if_neg hcond, habsent]
  · have hcond : ¬(e2 = "" ∨ pw2 = "") := by
      push_neg
      exact ⟨h2e, h2p⟩
    unfold login
    rw [if_neg hcond, hfind2]
    simp [hver, hwrong]
  · have hcond : ¬(e3 = "" ∨ pw3 = "") := by
      push_neg
      exact ⟨h3e, h3p⟩
    unfold login
    rw [if_neg hcond, hfind3]
    simp [hunver]

/-- C9: a registration attempt whose email already belongs to an existing
user fails with the duplicate-email error and leaves the store unchanged
(checked before any creation), in both register variants. -/
theorem register_duplicate (hash : String → String) (s : Store)
    (fullName email password passwordConfirm : String) (roleField : Option String)
    (vtok : String) (now : Int) (newId : Nat) (emailOk : Bool)
    (hf : fullName ≠ "") (he : email ≠ "") (hp : password ≠ "")
    (hpc : passwordConfirm = password)
    (hdup : (findByEmail s email).isSome = true) :
    register hash s fullName email password passwordConfirm roleField vtok now newId emailOk
      = (⟨400, false, "User already exists with this email"⟩, s)
    ∧ registerV2 hash s fullName email password passwordConfirm vtok now newId emailOk
      = (⟨400, false, "User already exists with this email"⟩, s) := by
  have hcond : ¬(fullName = "" ∨ email = "" ∨ password = "" ∨ passwordConfirm = "") := by
    push_neg
    refine ⟨hf, he, hp, ?_⟩
    rw [hpc]
    exact hp
  constructor
  · unfold register
    rw [if_neg hcond, if_neg (by simp [hpc]), if_pos hdup]
  · unfold registerV2
    rw [if_neg hcond, if_neg (by simp [hpc]), if_pos hdup]

/-- C8: self-registration can only create users with the default `user`
role: any user present after a register call that was not present before
has role `user` (in both variants), and the current variant rejects a
truthy role field other than `user` outright, leaving the store unchanged. -/
theorem register_role_forced (hash : String → String) (s : Store)
    (fullName email password passwordConfirm : String) (roleField : Option String)
    (vtok : String) (now : Int) (newId : Nat) (emailOk : Bool) :
    (∀ w ∈ (register hash s fullName email password passwordConfirm roleField
        vtok now newId emailOk).2, w ∈ s ∨ w.role = "user")
    ∧ (∀ w ∈ (registerV2 hash s fullName email password passwordConfirm
        vtok now newId emailOk).2, w ∈ s ∨ w.role = defaultRole)
    ∧ (∀ r, roleField = some r → r ≠ "" → r ≠ "user" →
        (register hash s fullName email password passwordConfirm roleField
          vtok now newId emailOk).2 = s) := by
  refine ⟨?_, ?_, ?_⟩
  · intro w hw
    unfold register at hw
    split at hw
    · exact Or.inl hw
    · split at hw
      · exact Or.inl hw
      · split at hw
        · exact Or.inl hw
        · split at hw
          · exact Or.inl hw
          · rcases List.mem_append.mp hw with h | h
            · exact Or.inl h
            · right
              rw [List.mem_singleton.mp h]
              rfl
  · intro w hw
    unfold registerV2 at hw
    split at hw
    · exact Or.inl hw
    · split at hw
      · exact Or.inl hw
      · split at hw
        · exact Or.inl hw
        · split at hw
          · rcases List.mem_append.mp hw with h | h
            · exact Or.inl h
            · right
              rw [List.mem_singleton.mp h]
              rfl
          · exact Or.inl hw
  · intro r hr hne hnu
    subst hr
    unfold register
    split
    · rfl
    · split
      · rfl
      · split
        · rfl
        · rw [if_pos (by simp [hne, hnu])]

/-- C1: presenting a since-rotated refresh token (any unexpired token for
this user other than the stored one) fails with the mismatch error and
leaves the store unchanged; presenting the currently stored refresh token
succeeds and overwrites the stored value with the newly issued token; and
afterwards the previously current token fails on a subsequent attempt. -/
theorem refresh_rotation (s : Store) (uid : Nat) (u : User)
    (cur old : SignedToken) (now now2 : Int)
    (hu : findById s uid = some u)
    (hcur : u.refreshToken = some cur)
    (holdid : old.userId = uid)
    (hcurid : cur.userId = uid)
    (hold : old ≠ cur)
    (holdexp : jwtExpired old now = false)
    (hcurexp : jwtExpired cur now = false)
    (hnewne : generateRefreshToken uid now ≠ cur)
    (hcurexp2 : jwtExpired cur now2 = false) :
    refreshTokenOp s (some old) now = (⟨401, false, "Invalid refresh token"⟩, s)
    ∧ refreshTokenOp s (some cur) now
      = (⟨200, true, ""⟩,
         updateUser s uid { u with refreshToken := some (generateRefreshToken uid now) })
    ∧ refreshTokenOp
        (updateUser s uid { u with refreshToken := some (generateRefreshToken uid now) })
        (some cur) now2
      = (⟨401, false, "Invalid refresh token"⟩,
         updateUser s uid { u with refreshToken := some (generateRefreshToken uid now) }) := by
  have huid : u.id = uid := findById_id_eq hu
  have hne_old : u.refreshToken ≠ some old := by
    rw [hcur]
    intro hcontra
    exact hold (Option.some.inj hcontra).symm
  have heq_cur : ¬ u.refreshToken ≠ some cur := by
    rw [hcur]
    exact fun h => h rfl
  refine ⟨?_, ?_, ?_⟩
  · simp only [refreshTokenOp]
    rw [holdid, holdexp]
    simp only [Bool.false_eq_true, if_false, hu]
    rw [if_pos hne_old]
  · simp only [refreshTokenOp]
    rw [hcurid, hcurexp]
    simp only [Bool.false_eq_true, if_false, hu]
    rw [if_neg heq_cur, ← huid]
    rfl
  · have hfind2 : findById
        (updateUser s uid { u with refreshToken := some (generateRefreshToken uid now) })
        uid = some { u with refreshToken := some (generateRefreshToken uid now) } :=
      findById_updateUser hu huid
    have hne_new : ({ u with refreshToken := some (generateRefreshToken uid now) }
        : User).refreshToken ≠ some cur := by
      simp only [ne_eq, Option.some.injEq]
      exact hnewne
    simp only [refreshTokenOp]
    rw [hcurid, hcurexp2]
    simp only [Bool.false_eq_true, if_false, hfind2]
    rw [if_pos hne_new]

/-- C2: when a VerifyEmail with plaintext token `t` succeeds (the matching
user is unexpired and unverified, and the token hash identifies at most one
user), it sets `emailVerified := true` and clears both verification fields;
a second VerifyEmail with the same plaintext token then fails with the
invalid-token error and changes nothing. -/
theorem verifyEmail_single_use (hash : String → String) (s : Store)
    (t : String) (now now2 : Int) (u : User)
    (ht : jsTrim (stripQuery t) ≠ "")
    (hfind : List.find?
        (fun w => w.emailVerificationToken == some (hash (jsTrim (stripQuery t)))) s
        = some u)
    (hcount : (s.filter
        (fun w => w.emailVerificationToken == some (hash (jsTrim (stripQuery t))))).length ≤ 1)
    (hnotexp : ∀ e, u.emailVerificationExpire = some e → ¬ e < now)
    (hunver : u.emailVerified = false) :
    verifyEmail hash s t now
      = (⟨200, true, "Email verified successfully"⟩,
         updateUser s u.id
           { u with emailVerified := true,
                    emailVerificationToken := none,
                    emailVerificationExpire := none })
    ∧ verifyEmail hash
        (updateUser s u.id
          { u with emailVerified := true,
                   emailVerificationToken := none,
                   emailVerificationExpire := none }) t now2
      = (⟨400, false, "Invalid verification token. The token may be incorrect or already used."⟩,
         updateUser s u.id
           { u with emailVerified := true,
                    emailVerificationToken := none,
                    emailVerificationExpire := none }) := by
  have hexpcond : (match u.emailVerificationExpire with
      | some e => decide (e < now)
      | none => false) = false := by
    cases hE : u.emailVerificationExpire with
    | none => rfl
    | some e => exact decide_eq_false (hnotexp e hE)
  have hpu := List.find?_some hfind
  have hmem := List.mem_of_find?_eq_some hfind
  have hfound2 : List.find?
      (fun w => w.emailVerificationToken == some (hash (jsTrim (stripQuery t))))
      (updateUser s u.id
        { u with emailVerified := true,
                 emailVerificationToken := none,
                 emailVerificationExpire := none }) = none := by
    rw [List.find?_eq_none]
    intro w hw
    rcases mem_updateUser hw with rfl | ⟨hws, hwid⟩
    · simp
    · intro hpw
      have hne : u ≠ w := by
        intro hEq
        exact hwid (by rw [← hEq])
      have h2 := two_le_length_filter
        (fun w => w.emailVerificationToken == some (hash (jsTrim (stripQuery t))))
        hmem hws hne hpu hpw
      omega
  constructor
  · simp only [verifyEmail]
    rw [if_neg ht]
    simp only [hfind]
    rw [hexpcond]
    simp only [Bool.false_eq_true, if_false]
    rw [hunver]
    simp
  · simp only [verifyEmail]
    rw [if_neg ht]
    simp only [hfound2]

/-- A concrete user with a pending (already expired at time 100) password
reset token, stored under the identity hash. -/
def expiredResetUser : User :=
  { id := 1
    fullName := "A"
    email := "a@b.c"
    password := "pw"
    role := "user"
    emailVerified := true
    emailVerificationToken := none
    emailVerificationExpire := none
    passwordResetToken := some "rtok"
    passwordResetExpire := some 50
    refreshToken := none
    loginStreak := 0
    lastLoginDate := none }

/-- C3 counterexample: at time 100 the stored reset hash matches `rtok`
but its expiry (50) is in the past; `resetPassword` answers with the single
combined `Invalid or expired` error — byte-identical to the response for a
token that matches nothing — so no distinct `TokenExpired` error exists on
the reset path. -/
theorem resetPassword_expired_not_distinct :
    (resetPassword (fun x => x) [expiredResetUser] "rtok" "secret1" "secret1" 100).1
      = ⟨400, false, "Invalid or expired password reset token"⟩
    ∧ (resetPassword (fun x => x) [expiredResetUser] "zzz" "secret1" "secret1" 100).1
      = (resetPassword (fun x => x) [expiredResetUser] "rtok" "secret1" "secret1" 100).1 := by
  decide

/-- C3 (amended): `verifyEmail` fails on a matching-but-expired token with
a dedicated expired-token error distinct from its invalid-token error,
while `resetPassword` rejects a matching-but-expired reset token with the
same combined `Invalid or expired` error it uses for a non-matching token. -/
theorem token_expiry_distinction (hash : String → String) (s : Store)
    (vt : String) (now : Int) (u : User) (e : Int)
    (rt pw : String) (rnow : Int)
    (hvt : jsTrim (stripQuery vt) ≠ "")
    (hfind : List.find?
        (fun w => w.emailVerificationToken == some (hash (jsTrim (stripQuery vt)))) s
        = some u)
    (hexp : u.emailVerificationExpire = some e) (helt : e < now)
    (hrt : rt ≠ "") (hpw : pw ≠ "") (hlen : ¬ pw.length < 6)
    (hallexp : ∀ v ∈ s, v.passwordResetToken = some (hash (jsTrim rt)) →
        ∀ e', v.passwordResetExpire = some e' → e' ≤ rnow) :
    verifyEmail hash s vt now
      = (⟨400, false, "Verification token has expired. Please request a new verification email."⟩, s)
    ∧ (⟨400, false, "Verification token has expired. Please request a new verification email."⟩
        : ApiResponse)
      ≠ ⟨400, false, "Invalid verification token. The token may be incorrect or already used."⟩
    ∧ resetPassword hash s rt pw pw rnow
      = (⟨400, false, "Invalid or expired password reset token"⟩, s) := by
  refine ⟨?_, by decide, ?_⟩
  · have hc : (match u.emailVerificationExpire with
        | some e => decide (e < now)
        | none => false) = true := by
      rw [hexp]
      exact decide_eq_true helt
    simp only [verifyEmail]
    rw [if_neg hvt]
    simp only [hfind]
    rw [hc]
    simp
  · have hcond : ¬(rt = "" ∨ pw = "" ∨ pw = "") := by
      push_neg
      exact ⟨hrt, hpw, hpw⟩
    have hnone : List.find? (fun v =>
        v.passwordResetToken == some (hash (jsTrim rt)) &&
        (match v.passwordResetExpire with
         | some e => decide (rnow < e)
         | none => false)) s = none := by
      rw [List.find?_eq_none]
      intro v hv hpred
      rcases Bool.and_eq_true_iff.mp hpred with ⟨htok, hexp'⟩
      have htok' : v.passwordResetToken = some (hash (jsTrim rt)) := by
        exact eq_of_beq htok
      cases hE : v.passwordResetExpire with
      | none => rw [hE] at hexp'; cases hexp'
      | some e' =>
        rw [hE] at hexp'
        have hgt : rnow < e' := of_decide_eq_true hexp'
        have hle := hallexp v hv htok' e' hE
        omega
    simp only [resetPassword]
    rw [if_neg hcond, if_neg (by simp), if_neg hlen]
    simp only [hnone]

/-- A concrete unverified user, target of a resend-verification request. -/
def unverifiedUser : User :=
  { id := 2
    fullName := "B"
    email := "b@c.d"
    password := "pw"
    role := "user"
    emailVerified := false
    emailVerificationToken := some "vtok"
    emailVerificationExpire := some 1000
    passwordResetToken := none
    passwordResetExpire := none
    refreshToken := none
    loginStreak := 0
    lastLoginDate := none }

/-- C4 counterexample: `resendVerification` answers 200/success both when
the email exists (unverified) and when it does not, but with different
message bodies, so the two responses are not byte-identical and reveal
whether the account exists. -/
theorem resend_not_identical :
    (resendVerification (fun x => x) [unverifiedUser] "b@c.d" "t2" 0 true).1.success = true
    ∧ (resendVerification (fun x => x) [] "b@c.d" "t2" 0 true).1.success = true
    ∧ (resendVerification (fun x => x) [unverifiedUser] "b@c.d" "t2" 0 true).1
      ≠ (resendVerification (fun x => x) [] "b@c.d" "t2" 0 true).1 := by
  decide

/-- C4 (amended): `forgotPassword` (with successful dispatch) returns one
fixed byte-identical success response whether or not the email exists,
while `resendVerification` returns a 200 success-shaped response in both
cases but with different message text for an absent versus an existing
unverified account. -/
theorem enumeration_defense (hash : String → String) (s : Store)
    (e rtok vtok : String) (now : Int) (he : e ≠ "") :
    (forgotPassword hash s e rtok now true).1
      = ⟨200, true, "If an account exists with this email, a password reset link has been sent."⟩
    ∧ (findByEmail s (jsToLower e) = none →
        (resendVerification hash s e vtok now true).1
          = ⟨200, true, "If an account exists with this email, a verification email has been sent."⟩)
    ∧ (∀ u, findByEmail s (jsToLower e) = some u → u.emailVerified = false →
        (resendVerification hash s e vtok now true).1
          = ⟨200, true, "Verification email sent successfully. Please check your email."⟩) := by
  refine ⟨?_, ?_, ?_⟩
  · simp only [forgotPassword]
    rw [if_neg he]
    cases hM : findByEmail s (jsToLower e) with
    | none => rfl
    | some u => rfl
  · intro hM
    simp only [resendVerification]
    rw [if_neg he]
    simp only [hM]
  · intro u hM hunv
    simp only [resendVerification]
    rw [if_neg he]
    simp only [hM]
    rw [hunv]
    simp

/-- A concrete user who already had a pending reset token before a new
forgot-password request. -/
def pendingResetUser : User :=
  { id := 3
    fullName := "C"
    email := "c@d.e"
    password := "pw"
    role := "user"
    emailVerified := true
    emailVerificationToken := none
    emailVerificationExpire := none
    passwordResetToken := some "old"
    passwordResetExpire := some 999
    refreshToken := none
    loginStreak := 0
    lastLoginDate := none }

/-- C7 counterexample: the user had a pending reset token (`old`, expiry
999) before the request; when the dispatch fails, `forgotPassword` clears
both reset fields instead of restoring them, so the store does not return
to its pre-request state. -/
theorem forgot_rollback_not_prior_state :
    (forgotPassword (fun x => x) [pendingResetUser] "c@d.e" "new" 0 false).2
      ≠ [pendingResetUser]
    ∧ (forgotPassword (fun x => x) [pendingResetUser] "c@d.e" "new" 0 false).1.status
      = 500 := by
  decide

/-- C7 (amended): for an existing user, a dispatch failure makes
`forgotPassword` clear both reset fields (set them to null — equal to the
pre-request state only when no reset token was pending) before returning
the generic 500 error; when dispatch succeeds the just-stored reset hash
and 1-hour expiry survive. -/
theorem forgot_dispatch_rollback (hash : String → String) (s : Store)
    (e rtok : String) (now : Int) (u : User)
    (he : e ≠ "") (hfind : findByEmail s (jsToLower e) = some u)
    (hid : findById s u.id = some u) :
    (forgotPassword hash s e rtok now false).1
      = ⟨500, false, "Failed to send password reset email. Please try again later."⟩
    ∧ findById (forgotPassword hash s e rtok now false).2 u.id
      = some { u with passwordResetToken := none, passwordResetExpire := none }
    ∧ (forgotPassword hash s e rtok now true).1
      = ⟨200, true, "If an account exists with this email, a password reset link has been sent."⟩
    ∧ findById (forgotPassword hash s e rtok now true).2 u.id
      = some { u with passwordResetToken := some (hash rtok),
                      passwordResetExpire := some (now + 60 * 60 * 1000) } := by
  have hstep1 : findById (updateUser s u.id { u with passwordResetToken := some (hash rtok), passwordResetExpire := some (now + 60 * 60 * 1000) }) u.id = some { u with passwordResetToken := some (hash rtok), passwordResetExpire := some (now + 60 * 60 * 1000) } :=
    findById_updateUser hid rfl
  refine ⟨?_, ?_, ?_, ?_⟩
  · simp only [forgotPassword]
    rw [if_neg he]
    simp only [hfind]
    rfl
  · simp only [forgotPassword]
    rw [if_neg he]
    simp only [hfind]
    exact findById_updateUser hstep1 rfl
  · simp only [forgotPassword]
    rw [if_neg he]
    simp only [hfind]
    rfl
  · simp only [forgotPassword]
    rw [if_neg he]
    simp only [hfind]
    exact hstep1

/-! ## Concrete instantiations -/

/-- A concrete user holding the refresh token issued at time 0. -/
def refreshUser : User :=
  { id := 1
    fullName := "R"
    email := "r@s.t"
    password := "pw"
    role := "user"
    emailVerified := true
    emailVerificationToken := none
    emailVerificationExpire := none
    passwordResetToken := none
    passwordResetExpire := none
    refreshToken := some (generateRefreshToken 1 0)
    loginStreak := 1
    lastLoginDate := some 0 }

/-- C1 witness: a stale token (issued at -1) for the user of `refreshUser`
is rejected with the mismatch error at time 5 while the store keeps holding
the current token. -/
theorem refresh_rotation_witness :
    jwtExpired ⟨1, -1, 604800000⟩ 5 = false
    ∧ refreshTokenOp [refreshUser] (some ⟨1, -1, 604800000⟩) 5
      = (⟨401, false, "Invalid refresh token"⟩, [refreshUser]) :=
  ⟨by decide,
   (refresh_rotation [refreshUser] 1 refreshUser (generateRefreshToken 1 0)
     ⟨1, -1, 604800000⟩ 5 9 (by decide) (by decide) (by decide) (by decide)
     (by decide) (by decide) (by decide) (by decide) (by decide)).1⟩

/-- A concrete unverified user with the pending verification hash of the
plaintext token `tok` (under the identity hash), expiring at 100. -/
def verifyUser : User :=
  { id := 4
    fullName := "V"
    email := "v@w.x"
    password := "pw"
    role := "user"
    emailVerified := false
    emailVerificationToken := some "tok"
    emailVerificationExpire := some 100
    passwordResetToken := none
    passwordResetExpire := none
    refreshToken := none
    loginStreak := 0
    lastLoginDate := none }

/-- C2 witness: verifying `tok` at time 50 succeeds and clears the
verification fields of `verifyUser`. -/
theorem verifyEmail_single_use_witness :
    jsTrim (stripQuery "tok") ≠ ""
    ∧ verifyEmail (fun x => x) [verifyUser] "tok" 50
      = (⟨200, true, "Email verified successfully"⟩,
         updateUser [verifyUser] verifyUser.id { verifyUser with emailVerified := true, emailVerificationToken := none, emailVerificationExpire := none }) :=
  ⟨by decide,
   (verifyEmail_single_use (fun x => x) [verifyUser] "tok" 50 60 verifyUser
     (by decide) (by decide) (by decide)
     (by
       intro e he
       have h100 : (100 : Int) = e := Option.some.inj he
       omega)
     (by decide)).1⟩

/-- A concrete user whose verification token (hash of `vtok`) expired at 40
and whose reset token (hash of `zzz`) expired at 60, both before time 100. -/
def expiredBothUser : User :=
  { id := 5
    fullName := "E"
    email := "e@f.g"
    password := "pw"
    role := "user"
    emailVerified := false
    emailVerificationToken := some "vtok"
    emailVerificationExpire := some 40
    passwordResetToken := some "zzz"
    passwordResetExpire := some 60
    refreshToken := none
    loginStreak := 0
    lastLoginDate := none }

/-- C3 witness: at time 100, `verifyEmail` answers the dedicated expired
error for `vtok` while `resetPassword` answers the combined invalid-or-
expired error for the matching but expired `zzz`. -/
theorem token_expiry_distinction_witness :
    jsTrim (stripQuery "vtok") ≠ ""
    ∧ verifyEmail (fun x => x) [expiredBothUser] "vtok" 100
      = (⟨400, false, "Verification token has expired. Please request a new verification email."⟩,
         [expiredBothUser])
    ∧ resetPassword (fun x => x) [expiredBothUser] "zzz" "secret1" "secret1" 100
      = (⟨400, false, "Invalid or expired password reset token"⟩, [expiredBothUser]) :=
  have h := token_expiry_distinction (fun x => x) [expiredBothUser] "vtok" 100
    expiredBothUser 40 "zzz" "secret1" 100 (by decide) (by decide) (by decide)
    (by decide) (by decide) (by decide) (by decide)
    (by
      intro v hv htok e' he'
      rw [List.mem_singleton] at hv
      subst hv
      have h60 : (60 : Int) = e' := Option.some.inj he'
      omega)
  ⟨by decide, h.1, h.2.2⟩

/-- C4 witness: `forgotPassword` answers the fixed generic success for the
(existing) email of `unverifiedUser` and `resendVerification` answers its
distinct sent-successfully message. -/
theorem enumeration_defense_witness :
    ("b@c.d" : String) ≠ ""
    ∧ (forgotPassword (fun x => x) [unverifiedUser] "b@c.d" "r" 0 true).1
      = ⟨200, true, "If an account exists with this email, a password reset link has been sent."⟩
    ∧ (resendVerification (fun x => x) [unverifiedUser] "b@c.d" "t2" 0 true).1
      = ⟨200, true, "Verification email sent successfully. Please check your email."⟩ :=
  have h := enumeration_defense (fun x => x) [unverifiedUser] "b@c.d" "r" "t2" 0 (by decide)
  ⟨by decide, h.1, h.2.2 unverifiedUser (by decide) (by decide)⟩

/-- A verified user with streak 5 whose last login was at time 0. -/
def streakUser : User :=
  { id := 6
    fullName := "S"
    email := "s@t.u"
    password := "pw"
    role := "user"
    emailVerified := true
    emailVerificationToken := none
    emailVerificationExpire := none
    passwordResetToken := none
    passwordResetExpire := none
    refreshToken := none
    loginStreak := 5
    lastLoginDate := some 0 }

/-- C5 witness: a successful login one hour after the previous one. -/
theorem login_streak_witness :
    findByEmail [streakUser] "s@t.u" = some streakUser
    ∧ (login [streakUser] "s@t.u" "pw" 3600000).1 = ⟨200, true, "Login successful"⟩ :=
  ⟨by decide,
   (login_streak [streakUser] "s@t.u" "pw" 3600000 streakUser (by decide) (by decide)
     (by decide) (by decide) (by decide) (by decide)).1⟩

/-- A concrete verified user for the login-indistinguishability witness. -/
def verifiedLoginUser : User :=
  { id := 7
    fullName := "W"
    email := "w@x.y"
    password := "pw"
    role := "user"
    emailVerified := true
    emailVerificationToken := none
    emailVerificationExpire := none
    passwordResetToken := none
    passwordResetExpire := none
    refreshToken := none
    loginStreak := 0
    lastLoginDate := none }

/-- A concrete unverified user for the login-indistinguishability witness. -/
def unverifiedLoginUser : User :=
  { id := 8
    fullName := "U"
    email := "u@x.y"
    password := "pw"
    role := "user"
    emailVerified := false
    emailVerificationToken := some "t"
    emailVerificationExpire := some 100
    passwordResetToken := none
    passwordResetExpire := none
    refreshToken := none
    loginStreak := 0
    lastLoginDate := none }

/-- C6 witness: absent email and wrong password yield the identical 401
response; correct password on the unverified account yields the 403. -/
theorem login_enumeration_witness :
    findByEmail [verifiedLoginUser, unverifiedLoginUser] "x@y.z" = none
    ∧ login [verifiedLoginUser, unverifiedLoginUser] "x@y.z" "pw" 0
      = (⟨401, false, "Invalid credentials"⟩, [verifiedLoginUser, unverifiedLoginUser])
    ∧ login [verifiedLoginUser, unverifiedLoginUser] "w@x.y" "wrong" 0
      = (⟨401, false, "Invalid credentials"⟩, [verifiedLoginUser, unverifiedLoginUser])
    ∧ login [verifiedLoginUser, unverifiedLoginUser] "u@x.y" "pw" 0
      = (⟨403, false, "Please verify your email before logging in"⟩,
         [verifiedLoginUser, unverifiedLoginUser]) :=
  have h := login_enumeration [verifiedLoginUser, unverifiedLoginUser]
    "x@y.z" "pw" "w@x.y" "wrong" "u@x.y" "pw" 0 verifiedLoginUser unverifiedLoginUser
    (by decide) (by decide) (by decide) (by decide) (by decide) (by decide)
    (by decide) (by decide) (by decide) (by decide) (by decide) (by decide) (by decide)
  ⟨by decide, h.1, h.2.1, h.2.2.1⟩

/-- C7 witness: dispatch failure for `pendingResetUser` yields the 500
response with both reset fields cleared. -/
theorem forgot_dispatch_rollback_witness :
    findByEmail [pendingResetUser] (jsToLower "c@d.e") = some pendingResetUser
    ∧ (forgotPassword (fun x => x) [pendingResetUser] "c@d.e" "new" 0 false).1
      = ⟨500, false, "Failed to send password reset email. Please try again later."⟩
    ∧ findById (forgotPassword (fun x => x) [pendingResetUser] "c@d.e" "new" 0 false).2
        pendingResetUser.id
      = some { pendingResetUser with passwordResetToken := none, passwordResetExpire := none } :=
  have h := forgot_dispatch_rollback (fun x => x) [pendingResetUser] "c@d.e" "new" 0
    pendingResetUser (by decide) (by decide) (by decide)
  ⟨by decide, h.1, h.2.1⟩

/-- C8 witness: a registration payload requesting the `admin` role is
rejected and creates nothing. -/
theorem register_role_forced_witness :
    (register (fun x => x) [] "A" "a@b.c" "pw" "pw" (some "admin") "t" 0 1 true).2 = [] :=
  (register_role_forced (fun x => x) [] "A" "a@b.c" "pw" "pw" (some "admin") "t" 0 1 true).2.2
    "admin" rfl (by decide) (by decide)

/-- A concrete existing user occupying the email `d@e.f`. -/
def dupEmailUser : User :=
  { id := 9
    fullName := "D"
    email := "d@e.f"
    password := "pw"
    role := "user"
    emailVerified := true
    emailVerificationToken := none
    emailVerificationExpire := none
    passwordResetToken := none
    passwordResetExpire := none
    refreshToken := none
    loginStreak := 0
    lastLoginDate := none }

/-- C9 witness: both register variants reject the occupied email `d@e.f`
and leave the single-user store unchanged. -/
theorem register_duplicate_witness :
    (findByEmail [dupEmailUser] "d@e.f").isSome = true
    ∧ register (fun x => x) [dupEmailUser] "N" "d@e.f" "pw" "pw" none "t" 0 10 true
      = (⟨400, false, "User already exists with this email"⟩, [dupEmailUser])
    ∧ registerV2 (fun x => x) [dupEmailUser] "N" "d@e.f" "pw" "pw" "t" 0 10 true
      = (⟨400, false, "User already exists with this email"⟩, [dupEmailUser]) :=
  have h := register_duplicate (fun x => x) [dupEmailUser] "N" "d@e.f" "pw" "pw" none
    "t" 0 10 true (by decide) (by decide) (by decide) rfl (by decide)
  ⟨by decide, h.1, h.2⟩

/-- C10 witness: with 3 of 8 lessons complete, a `completedAt` already set
to 7 is preserved by the update. -/
theorem updateProgress_correct_witness :
    (3 : Nat) ≤ 8
    ∧ (updateProgress ⟨0, [], 0, 0, some 7⟩ 3 8 5).completedAt = some 7 :=
  ⟨by decide, (updateProgress_correct ⟨0, [], 0, 0, some 7⟩ 3 8 5 (by decide)).2.2.2 7 rfl⟩
